import Mathlib

/-!
Shallow embedding of the Google Maps listing scraper
(`src/scraper.py`, class `GoogleMapsScraper`) together with proofs about
its discovery loop, URL deduplication, field extraction and session
orchestration.  Browser behaviour (what each DOM query returns, whether a
navigation succeeds, how many result entries are rendered at each scroll
iteration) is scripted by an explicit environment, and the scraper's
functions are translated directly from the Python source.
-/

namespace MapsScraper

/-- State of the single browser page the scraper drives: the URL it
currently displays.  `GoogleMapsScraper.__init__` (scraper.py lines 18-27)
stores exactly one `self.page`; every navigation in the module targets it. -/
structure PageState where
  url : String
deriving DecidableEq

/-- Observable browser actions issued by the scraper: a navigation of its
single page (every `self.page.goto` call), and an invocation of the
scrolling discovery loop recording the `max_results` target it was
handed (`scroll_results` call in `scrape_all`, line 367). -/
inductive Ev where
  | goto (url : String)
  | discover (target : Nat)
deriving DecidableEq

/-- Scripted behaviour of the initial search navigation in `search`
(lines 30-60): the `page.goto` may raise, the `div[role="feed"]` selector
may time out, or both steps may succeed. -/
inductive SearchBehaviour where
  | navThrows
  | feedTimeout
  | ok
deriving DecidableEq

/-- Embeds `GoogleMapsScraper.search` (lines 30-60): returns `True` when
navigation succeeds and the results container renders; both the
`PlaywrightTimeout` handler and the generic `Exception` handler return
`False`. -/
def search : SearchBehaviour → Bool
  | .navThrows => false
  | .feedTimeout => false
  | .ok => true

/-- One scripted iteration of the scrolling loop: how many
`a[href*="/maps/place/"]` elements are rendered, and whether the
end-of-results marker is present. -/
structure ScrollStep where
  count : Nat
  endMarker : Bool
deriving DecidableEq

/-- Outcome of `scroll_results` (lines 62-126): the results container may
be missing (lines 75-78), the loop may hit the target (line 91), see the
end-of-results marker (line 96), stall after three unchanged counts
(lines 102-106), or run off the end of the scripted behaviour. -/
inductive ScrollOutcome where
  | noFeed
  | reachedTarget (count : Nat)
  | endOfResults (count : Nat)
  | stalled (count : Nat)
  | exhausted
deriving DecidableEq

/-- Embeds the `while True` loop of `scroll_results` (lines 83-120).
`prev` is `previous_count` (initialised to 0 at line 80) and `streak` is
`no_change_count` (initialised to 0 at line 81).  Each iteration checks,
in source order: target reached, end marker present, count unchanged
(incrementing the streak and breaking at 3), otherwise resetting the
streak to 0; then updates `previous_count` and scrolls. -/
def scrollLoop (maxResults : Nat) : Nat → Nat → List ScrollStep → ScrollOutcome
  | _, _, [] => .exhausted
  | prev, streak, step :: rest =>
    if maxResults ≤ step.count then .reachedTarget step.count
    else if step.endMarker then .endOfResults step.count
    else if step.count = prev then
      if 3 ≤ streak + 1 then .stalled step.count
      else scrollLoop maxResults step.count (streak + 1) rest
    else scrollLoop maxResults step.count 0 rest

/-- Embeds `GoogleMapsScraper.scroll_results` (lines 62-126): the feed
container is queried first (lines 75-78, returning early when absent),
then the counting/scrolling loop runs. -/
def scroll_results (feedPresent : Bool) (maxResults : Nat)
    (script : List ScrollStep) : ScrollOutcome :=
  if feedPresent then scrollLoop maxResults 0 0 script else .noFeed

/-- Embeds the accumulation loop of `get_listing_urls` (lines 138-142):
for each link, read its `href`; keep it when it is truthy (non-`None`
and non-empty) and not already collected, appending to the result list. -/
def collectUrls : List (Option String) → List String → List String
  | [], acc => acc
  | href? :: rest, acc =>
    match href? with
    | some href =>
      if href ≠ "" ∧ href ∉ acc then collectUrls rest (acc ++ [href])
      else collectUrls rest acc
    | none => collectUrls rest acc

/-- Embeds `GoogleMapsScraper.get_listing_urls` (lines 128-149).  The
input is `none` when querying the link elements or reading an attribute
raises (the `except` branch at lines 147-149 then returns `[]`);
otherwise it is the list of `href` attributes of the rendered
`a[href*="/maps/place/"]` elements, `none` entries standing for a missing
attribute. -/
def get_listing_urls : Option (List (Option String)) → List String
  | none => []
  | some hrefs => collectUrls hrefs []

/-- Specification-side description of the deduplicated queue: the
distinct entries of a list in first-seen order (each entry kept at its
first occurrence, later duplicates dropped).  Stated from the spec's
words for comparison with `get_listing_urls`. -/
def firstSeenDistinct : List String → List String
  | [] => []
  | h :: rest => h :: (firstSeenDistinct rest).filter (fun x => decide (x ≠ h))

/-- Hrefs of a rendered snapshot that survive the code's truthiness test:
present (`some`) and non-empty. -/
def truthyHrefs (links : List (Option String)) : List String :=
  (links.filterMap id).filter (fun h => decide (h ≠ ""))

/-- Python `str.strip` on ASCII whitespace: drop leading and trailing
whitespace characters. -/
def pyStrip (s : String) : String :=
  String.mk (((s.data.dropWhile Char.isWhitespace).reverse.dropWhile
    Char.isWhitespace).reverse)

/-- Replacement scanner for `pyReplace`: left-to-right, non-overlapping,
matching Python `str.replace` with pattern `p :: ps`.  The first argument
counts pattern characters still to be skipped after a match, so the
recursion is structural in the input list. -/
def replaceListAux (p : Char) (ps repl : List Char) : Nat → List Char → List Char
  | _, [] => []
  | 0, c :: cs =>
    if c = p ∧ ps.isPrefixOf cs then repl ++ replaceListAux p ps repl ps.length cs
    else c :: replaceListAux p ps repl 0 cs
  | skip + 1, _ :: cs => replaceListAux p ps repl skip cs

/-- Python `s.replace(pat, repl)`: replace every (non-overlapping,
left-to-right) occurrence of `pat` in `s` by `repl`.  All patterns in
the scraped source are non-empty; an empty pattern leaves `s` unchanged
here. -/
def pyReplace (s pat repl : String) : String :=
  match pat.data with
  | [] => s
  | p :: ps => String.mk (replaceListAux p ps repl.data 0 s.data)

/-- Value of a run of decimal digit characters, most significant first. -/
def digitsToNat (cs : List Char) : Nat :=
  cs.foldl (fun acc c => 10 * acc + (c.toNat - 48)) 0

/-- Leftmost match of the Python regex `(\d+[.,]\d+|\d+)` (line 197): the
first maximal digit run, extended through a single `.` or `,` separator
when at least one digit follows it. -/
def scanTok : List Char → Option (List Char)
  | [] => none
  | c :: cs =>
    if c.isDigit then
      let run := c :: cs.takeWhile (fun d => d.isDigit)
      match cs.dropWhile (fun d => d.isDigit) with
      | s :: d :: rest =>
        if (s = '.' ∨ s = ',') ∧ d.isDigit then
          some (run ++ s :: d :: rest.takeWhile (fun e => e.isDigit))
        else some run
      | _ => some run
    else scanTok cs

/-- String wrapper around `scanTok`: the text matched by
`re.search(r'(\d+[.,]\d+|\d+)', text)`, if any. -/
def firstNumToken (text : String) : Option String :=
  (scanTok text.data).map (fun cs => String.mk cs)

/-- Numeric value of a token of shape `digits` or `digits.digits`,
mirroring Python `float` on the regex-matched token (exact, as a
rational). -/
def parseDecimal (s : String) : ℚ :=
  match s.data.span (fun c => decide (c ≠ '.')) with
  | (intPart, []) => (digitsToNat intPart : ℚ)
  | (intPart, _ :: fracPart) =>
    (digitsToNat intPart : ℚ) + (digitsToNat fracPart : ℚ) / (10 : ℚ) ^ fracPart.length

/-- Embeds the rating normalisation (lines 197-199): find the first
decimal-or-integer token, replace the comma separator by a period, and
parse the result numerically.  `none` when the text has no digits. -/
def ratingFromText (text : String) : Option ℚ :=
  (firstNumToken text).map (fun tok => parseDecimal (pyReplace tok "," "."))

/-- First maximal digit run of a character list, for the reviews-count
regex `[\(]?([\d]+)[\)]?` (line 218) whose capture group is exactly the
first digit run of the cleaned text. -/
def firstDigitRun : List Char → Option (List Char)
  | [] => none
  | c :: cs =>
    if c.isDigit then some (c :: cs.takeWhile (fun d => d.isDigit))
    else firstDigitRun cs

/-- Embeds the reviews-count normalisation (lines 217-220): strip all `.`
and `,` characters, then parse the first digit run as an integer. -/
def reviewsFromText (text : String) : Option Nat :=
  (firstDigitRun ((pyReplace (pyReplace text "." "") "," "").data)).map digitsToNat

/-- A DOM element as the scraper observes it: its inner text and its
attributes (`get_attribute` returning `none` for a missing attribute). -/
structure Elem where
  innerText : String
  attr : String → Option String

/-- A loaded detail page: what `query_selector` returns for each CSS
selector, and `self.page.url` after the navigation (post-redirect,
read at line 330). -/
structure DetailPage where
  query : String → Option Elem
  finalUrl : String

/-- Scripted behaviour of one candidate URL in `scrape_listing`: either
the navigation/`h1` wait fails (lines 154-158 raising into the `except`
at line 334), or the detail page loads with the given content. -/
inductive DetailOutcome where
  | fail
  | loaded (page : DetailPage)

/-- Name selector cascade (line 173). -/
def name_selectors : List String :=
  ["h1.DUwDvf", "h1.fontHeadlineLarge", "h1"]

/-- Rating selector cascade (lines 184-191). -/
def rating_selectors : List String :=
  ["div.F7nice span:first-child", "span.ceNzKf", "div.fontDisplayLarge",
   "span.fontDisplayLarge", "span.MW4etd", "div[jsaction*=\"rating\"] span"]

/-- Reviews-count selector cascade (lines 205-210). -/
def reviews_selectors : List String :=
  ["div.F7nice span:last-child", "span.UY7F9", "button[jsaction*=\"reviews\"]",
   "span[aria-label*=\"reviews\"]"]

/-- Category selector cascade (lines 226-230). -/
def category_selectors : List String :=
  ["button[jsaction*=\"category\"]", "span.DkEaL", "button.DkEaL"]

/-- Address selector cascade (lines 241-247). -/
def address_selectors : List String :=
  ["button[data-item-id=\"address\"]",
   "button[data-item-id*=\"address\"] div.fontBodyMedium",
   "div[data-item-id=\"address\"]", "button[aria-label*=\"Address\"]",
   "div.rogA2c div.fontBodyMedium"]

/-- Phone selector cascade (lines 260-265). -/
def phone_selectors : List String :=
  ["button[data-item-id*=\"phone:tel\"]",
   "button[data-item-id*=\"phone\"] div.fontBodyMedium",
   "button[aria-label*=\"Phone\"]", "a[href^=\"tel:\"]"]

/-- Website selector cascade (lines 289-294). -/
def website_selectors : List String :=
  ["a[data-item-id=\"authority\"]", "a[data-item-id*=\"authority\"]",
   "a[aria-label*=\"Website\"]", "button[data-item-id*=\"website\"]"]

/-- Hours selector cascade (lines 307-312). -/
def hours_selectors : List String :=
  ["div[aria-label*=\"hours\"]", "div[aria-label*=\"Hours\"]",
   "button[data-item-id*=\"oh\"]", "div.t39EBf"]

/-- Generic shape of every per-field `for selector in ...` loop in
`scrape_listing`: try selectors in order; when an element is found and
the field-specific body produces a value, stop with it; otherwise move
on to the next selector. -/
def firstHit (q : String → Option Elem) (attempt : Elem → Option α) :
    List String → Option α
  | [] => none
  | sel :: rest =>
    match q sel with
    | some el =>
      match attempt el with
      | some v => some v
      | none => firstHit q attempt rest
    | none => firstHit q attempt rest

/-- Name loop body (lines 174-179): any found element is accepted and
its stripped inner text stored, even when empty. -/
def nameOf (el : Elem) : Option String :=
  some (pyStrip el.innerText)

/-- Category loop body (lines 231-236): any found element is accepted. -/
def categoryOf (el : Elem) : Option String :=
  some (pyStrip el.innerText)

/-- Rating loop body (lines 192-200): accepted only when the stripped
text contains a numeric token. -/
def ratingOf (el : Elem) : Option ℚ :=
  ratingFromText (pyStrip el.innerText)

/-- Reviews loop body (lines 211-221): accepted only when the cleaned
text contains a digit run. -/
def reviewsOf (el : Elem) : Option Nat :=
  reviewsFromText (pyStrip el.innerText)

/-- Address loop body (lines 248-255): accepted only when the stripped
text is truthy and longer than 5 characters; line breaks become `, `. -/
def addressOf (el : Elem) : Option String :=
  let text := pyStrip el.innerText
  if text ≠ "" ∧ 5 < text.length then some (pyReplace text "\n" ", ") else none

/-- Phone loop body (lines 266-273): accepted only when the stripped
text is truthy; line breaks become a space. -/
def phoneOf (el : Elem) : Option String :=
  let text := pyStrip el.innerText
  if text ≠ "" then some (pyReplace text "\n" " ") else none

/-- Website loop body (lines 295-302): accepted only when the element
carries a truthy `href` attribute. -/
def websiteOf (el : Elem) : Option String :=
  match el.attr "href" with
  | some href => if href ≠ "" then some href else none
  | none => none

/-- Visible-text branch of the hours loop body (lines 321-325). -/
def hoursTextOf (el : Elem) : Option String :=
  let text := pyStrip el.innerText
  if text ≠ "" then some (pyReplace text "\n" ", ") else none

/-- Hours loop body (lines 313-325): a truthy `aria-label` is preferred;
otherwise the stripped visible text is used when truthy. -/
def hoursOf (el : Elem) : Option String :=
  match el.attr "aria-label" with
  | some aria => if aria ≠ "" then some aria else hoursTextOf el
  | none => hoursTextOf el

/-- Phone fallback (lines 278-286): when the cascade produced nothing,
read the `href` of an `a[href^="tel:"]` element and strip every `tel:`
occurrence. -/
def telFallback (q : String → Option Elem) : Option String :=
  match q "a[href^=\"tel:\"]" with
  | some el =>
    match el.attr "href" with
    | some href => if href ≠ "" then some (pyReplace href "tel:" "") else none
    | none => none
  | none => none

/-- The record assembled by `scrape_listing` (lines 160-170): every field
optional except the source URL key `google_maps_url`. -/
structure Record where
  name : Option String
  rating : Option ℚ
  reviews_count : Option Nat
  category : Option String
  address : Option String
  phone : Option String
  website : Option String
  hours : Option String
  google_maps_url : String
deriving DecidableEq

/-- Field extraction on a loaded detail page (lines 160-332): each field
runs its selector cascade, the phone falls back to the `tel:` href when
the cascade found nothing, and `google_maps_url` is overwritten with the
page's current URL (line 330). -/
def extractRecord (dp : DetailPage) : Record :=
  { name := firstHit dp.query nameOf name_selectors
    rating := firstHit dp.query ratingOf rating_selectors
    reviews_count := firstHit dp.query reviewsOf reviews_selectors
    category := firstHit dp.query categoryOf category_selectors
    address := firstHit dp.query addressOf address_selectors
    phone :=
      match firstHit dp.query phoneOf phone_selectors with
      | some p => some p
      | none => telFallback dp.query
    website := firstHit dp.query websiteOf website_selectors
    hours := firstHit dp.query hoursOf hours_selectors
    google_maps_url := dp.finalUrl }

/-- Result of one `scrape_listing` call: the record, the page state after
the call, and the browser actions performed. -/
structure ListingResult where
  record : Record
  page : PageState
  trace : List Ev

/-- Embeds `GoogleMapsScraper.scrape_listing` (lines 151-346): navigate
`self.page` — the one page the scraper owns — to the candidate URL; on
success extract fields from the loaded document (leaving the page on the
detail URL); on any failure return the all-`None` record whose
`google_maps_url` is the requested URL (lines 334-346). -/
def scrape_listing (detail : String → DetailOutcome) (url : String)
    (pg : PageState) : ListingResult :=
  match detail url with
  | .fail =>
    ⟨⟨none, none, none, none, none, none, none, none, url⟩, pg, [Ev.goto url]⟩
  | .loaded dp => ⟨extractRecord dp, ⟨dp.finalUrl⟩, [Ev.goto url]⟩

/-- Python truthiness of `data.get("name")` at line 386: a record is kept
only when its name is present and non-empty. -/
def nameTruthy : Option String → Bool
  | some s => decide (s ≠ "")
  | none => false

/-- Result of a session: the emitted records, the final page state and
the browser actions performed. -/
structure SessionResult where
  records : List Record
  page : PageState
  trace : List Ev

/-- Embeds the per-candidate loop of `scrape_all` (lines 381-394): scrape
each URL in order on the single page, appending the record only when its
name is truthy. -/
def scrapeLoop (detail : String → DetailOutcome) :
    List String → PageState → SessionResult
  | [], pg => ⟨[], pg, []⟩
  | url :: rest, pg =>
    let r := scrape_listing detail url pg
    let s := scrapeLoop detail rest r.page
    ⟨if nameTruthy r.record.name then r.record :: s.records else s.records,
     s.page, r.trace ++ s.trace⟩

/-- Hexadecimal digit character (uppercase), for percent-encoding. -/
def hexDigit (n : Nat) : Char :=
  if n < 10 then Char.ofNat (48 + n) else Char.ofNat (55 + n)

/-- UTF-8 byte values of one character. -/
def utf8Nat (c : Char) : List Nat :=
  let n := c.toNat
  if n < 128 then [n]
  else if n < 2048 then [192 + n / 64, 128 + n % 64]
  else if n < 65536 then [224 + n / 4096, 128 + (n / 64) % 64, 128 + n % 64]
  else [240 + n / 262144, 128 + (n / 4096) % 64, 128 + (n / 64) % 64, 128 + n % 64]

/-- Percent-encoding of one byte as in Python `urllib.parse.quote_plus`:
space becomes `+`, unreserved bytes stay, everything else is `%XX`. -/
def quoteByte (b : Nat) : List Char :=
  if b = 32 then ['+']
  else if (48 ≤ b ∧ b ≤ 57) ∨ (65 ≤ b ∧ b ≤ 90) ∨ (97 ≤ b ∧ b ≤ 122) ∨
      b = 45 ∨ b = 46 ∨ b = 95 ∨ b = 126 then [Char.ofNat b]
  else ['%', hexDigit (b / 16), hexDigit (b % 16)]

/-- Python `urllib.parse.quote_plus` over the UTF-8 encoding. -/
def quotePlus (s : String) : String :=
  String.mk ((s.data.flatMap utf8Nat).flatMap quoteByte)

/-- The scraper's base URL (line 28). -/
def base_url : String := "https://www.google.com/maps/search/"

/-- Search URL built in `search` (lines 41-42). -/
def searchUrl (query location : String) : String :=
  base_url ++ quotePlus (query ++ " in " ++ location)

/-- Scripted browser behaviour for one whole session. -/
structure Env where
  searchBehaviour : SearchBehaviour
  feedPresent : Bool
  scrollScript : List ScrollStep
  links : Option (List (Option String))
  detail : String → DetailOutcome

/-- Embeds `GoogleMapsScraper.scrape_all` (lines 348-397): run the
search (returning no records when it fails), run the scrolling discovery
loop with `limit` as its target, enumerate the listing URLs (returning
no records when there are none), then scrape the first `limit` URLs in
order, keeping records whose name is truthy. -/
def scrape_all (env : Env) (query location : String) (limit : Nat)
    (pg : PageState) : SessionResult :=
  if search env.searchBehaviour then
    let pg1 : PageState := ⟨searchUrl query location⟩
    let _scrolled := scroll_results env.feedPresent limit env.scrollScript
    let urls := get_listing_urls env.links
    if urls = [] then
      ⟨[], pg1, [Ev.goto (searchUrl query location), Ev.discover limit]⟩
    else
      let s := scrapeLoop env.detail (urls.take limit) pg1
      ⟨s.records, s.page,
       Ev.goto (searchUrl query location) :: Ev.discover limit :: s.trace⟩
  else ⟨[], pg, [Ev.goto (searchUrl query location)]⟩

/-! Concrete scripted behaviours used to exercise the theorems below. -/

/-- A detail page whose root heading is empty, whose first address
selector holds short text and whose second address selector holds a full
address, with a generic `h1` carrying the actual name. -/
def qC7 : String → Option Elem := fun sel =>
  if sel = "h1.DUwDvf" then some ⟨"", fun _ => none⟩
  else if sel = "h1" then some ⟨"Actual Name", fun _ => none⟩
  else if sel = "button[data-item-id=\"address\"]" then some ⟨"abc", fun _ => none⟩
  else if sel = "button[data-item-id*=\"address\"] div.fontBodyMedium" then
    some ⟨"123 Fake Street 99", fun _ => none⟩
  else none

/-- Detail page built from `qC7`. -/
def dpC7 : DetailPage := ⟨qC7, "https://maps/final"⟩

/-- A detail page with no matching elements at all. -/
def dpC2 : DetailPage := ⟨fun _ => none, "https://maps/place/detail-final"⟩

/-- Detail behaviour that loads `dpC2` for one candidate URL. -/
def dC2 : String → DetailOutcome := fun u =>
  if u = "https://maps/place/candidate" then .loaded dpC2 else .fail

/-- Detail behaviour where every candidate fails to load. -/
def dFail : String → DetailOutcome := fun _ => .fail

/-- A session whose search succeeds but whose rendered list is empty. -/
def envC4 : Env := ⟨.ok, true, [], some [], dFail⟩

/-- A session whose initial search navigation throws. -/
def envC9 : Env := ⟨.navThrows, true, [], some [], dFail⟩

/-- A session where enumerating the listing URLs throws. -/
def envC10 : Env := ⟨.ok, true, [], none, dFail⟩

/-! Helper lemmas shared by the claim theorems. -/

/-- The per-candidate loop emits at most one record per URL. -/
theorem scrapeLoop_records_length (detail : String → DetailOutcome)
    (urls : List String) (pg : PageState) :
    (scrapeLoop detail urls pg).records.length ≤ urls.length := by
  induction urls generalizing pg with
  | nil => simp [scrapeLoop]
  | cons u rest ih =>
    simp only [scrapeLoop, List.length_cons]
    by_cases h : nameTruthy (scrape_listing detail u pg).record.name
    · simp only [h, if_true, List.length_cons]
      exact Nat.succ_le_succ (ih _)
    · simp only [h, if_false]
      exact (ih _).trans (Nat.le_succ _)

/-- `scrape_listing` performs exactly one browser action: a navigation of
the scraper's page to the candidate URL. -/
theorem scrape_listing_trace (detail : String → DetailOutcome)
    (url : String) (pg : PageState) :
    (scrape_listing detail url pg).trace = [Ev.goto url] := by
  cases h : detail url <;> simp [scrape_listing, h]

/-- The per-candidate loop never invokes the discovery loop. -/
theorem scrapeLoop_no_discover (detail : String → DetailOutcome)
    (urls : List String) (pg : PageState) (t : Nat) :
    Ev.discover t ∉ (scrapeLoop detail urls pg).trace := by
  induction urls generalizing pg with
  | nil => simp [scrapeLoop]
  | cons u rest ih =>
    simp only [scrapeLoop, List.mem_append, scrape_listing_trace]
    rintro (hmem | hmem)
    · simp at hmem
    · exact ih _ hmem

/-- Claim C1: for every session (every `scrape_all` invocation with result
limit `limit`) and every scripted behaviour of the browser, the sequence
of records returned to the caller has length at most `limit` — the
session never over-delivers. -/
theorem c1_never_over_delivers (env : Env) (query location : String)
    (limit : Nat) (pg : PageState) :
    (scrape_all env query location limit pg).records.length ≤ limit := by
  by_cases hs : search env.searchBehaviour
  · by_cases hu : get_listing_urls env.links = []
    · simp [scrape_all, hs, hu]
    · simp only [scrape_all, hs, if_true, hu, if_false]
      exact (scrapeLoop_records_length _ _ _).trans
        (by rw [List.length_take]; exact min_le_left _ _)
  · simp [scrape_all, hs]

/-- Claim C8: when extraction of a candidate fails (detail page load
timeout or missing root heading), the extractor returns a record whose
every field is absent except the source URL, which equals the requested
candidate URL; the failed candidate contributes zero records to the
emitted sequence and the loop continues with the remaining candidates. -/
theorem c8_failed_candidate (detail : String → DetailOutcome) (url : String)
    (pg : PageState) (h : detail url = .fail) :
    (scrape_listing detail url pg).record =
      { name := none, rating := none, reviews_count := none, category := none,
        address := none, phone := none, website := none, hours := none,
        google_maps_url := url } ∧
    ∀ (rest : List String) (pg2 : PageState),
      (scrapeLoop detail (url :: rest) pg2).records =
        (scrapeLoop detail rest pg2).records := by
  constructor
  · simp [scrape_listing, h]
  · intro rest pg2
    simp [scrapeLoop, scrape_listing, h, nameTruthy]

/-- Witness for C8 at a concrete failing behaviour: the failing first
candidate leaves the emitted records exactly those of the remaining
candidates. -/
theorem c8_failed_candidate_witness :
    (scrapeLoop dFail ["https://maps/place/a", "https://maps/place/b"]
        ⟨"feed"⟩).records =
      (scrapeLoop dFail ["https://maps/place/b"] ⟨"feed"⟩).records :=
  (c8_failed_candidate dFail "https://maps/place/a" ⟨"feed"⟩ rfl).2
    ["https://maps/place/b"] ⟨"feed"⟩

/-- Claim C9: if the initial search navigation throws, or the results
container never renders within its timeout, the session returns an empty
sequence of records rather than raising. -/
theorem c9_search_failure (env : Env) (query location : String) (limit : Nat)
    (pg : PageState)
    (h : env.searchBehaviour = .navThrows ∨ env.searchBehaviour = .feedTimeout) :
    (scrape_all env query location limit pg).records = [] := by
  have hs : search env.searchBehaviour = false := by
    rcases h with h | h <;> simp [search, h]
  simp [scrape_all, hs]

/-- Witness for C9: a session whose search navigation throws emits no
records. -/
theorem c9_search_failure_witness :
    (scrape_all envC9 "restaurants" "New York" 10 ⟨"about:blank"⟩).records = [] :=
  c9_search_failure envC9 "restaurants" "New York" 10 ⟨"about:blank"⟩ (Or.inl rfl)

/-- Claim C10: when enumerating the candidate URLs throws, the
enumeration returns the empty list and the session ends gracefully with
the records emitted so far — none — instead of propagating the error. -/
theorem c10_enumeration_throws (env : Env) (query location : String)
    (limit : Nat) (pg : PageState) (h : env.links = none) :
    get_listing_urls env.links = [] ∧
    (scrape_all env query location limit pg).records = [] := by
  refine ⟨by rw [h]; rfl, ?_⟩
  by_cases hs : search env.searchBehaviour
  · simp [scrape_all, hs, h, get_listing_urls]
  · simp [scrape_all, hs]

/-- Witness for C10 at a concrete throwing behaviour. -/
theorem c10_enumeration_throws_witness :
    (scrape_all envC10 "cafes" "Paris" 10 ⟨"about:blank"⟩).records = [] :=
  (c10_enumeration_throws envC10 "cafes" "Paris" 10 ⟨"about:blank"⟩ rfl).2

/-- Unfolding of one scripted iteration of the scrolling loop. -/
theorem scrollLoop_cons_eq (target prev streak c : Nat) (e : Bool)
    (rest : List ScrollStep) :
    scrollLoop target prev streak (⟨c, e⟩ :: rest) =
      if target ≤ c then .reachedTarget c
      else if e then .endOfResults c
      else if c = prev then
        if 3 ≤ streak + 1 then .stalled c
        else scrollLoop target c (streak + 1) rest
      else scrollLoop target c 0 rest := rfl

/-- On a constant scripted count equal to the previous one, the loop
stalls exactly when the streak budget runs out within the script. -/
theorem scrollLoop_replicate_stall (target n : Nat) (ht : n < target) :
    ∀ (m streak : Nat), streak < 3 →
      (scrollLoop target n streak (List.replicate m ⟨n, false⟩) = .stalled n ↔
        3 ≤ streak + m) := by
  intro m
  induction m with
  | zero =>
    intro streak h3
    simp [scrollLoop]
    omega
  | succ m ih =>
    intro streak h3
    rw [List.replicate_succ, scrollLoop_cons_eq]
    rw [if_neg (by omega : ¬ target ≤ n)]
    rw [if_neg (by simp : ¬ (false = true))]
    rw [if_pos rfl]
    by_cases hs : 3 ≤ streak + 1
    · rw [if_pos hs]
      simp
      omega
    · rw [if_neg hs, ih (streak + 1) (by omega)]
      omega

/-- Claim C2 (amended): there is no secondary rendering surface — detail
page navigation in `scrape_listing` is performed on the scraper's one
page (the primary surface hosting the results list), so a successful
extraction leaves that page on the detail URL, replacing the
results-list state.  The code compensates by collecting all candidate
URLs before extraction begins. -/
theorem c2_detail_nav_on_primary (detail : String → DetailOutcome)
    (url : String) (pg : PageState) (dp : DetailPage)
    (h : detail url = .loaded dp) :
    (scrape_listing detail url pg).trace = [Ev.goto url] ∧
    (scrape_listing detail url pg).page = ⟨dp.finalUrl⟩ := by
  simp [scrape_listing, h]

/-- Witness for the amended C2: after extracting a concrete candidate the
scraper's page sits on the detail page's final URL. -/
theorem c2_detail_nav_on_primary_witness :
    (scrape_listing dC2 "https://maps/place/candidate"
        ⟨"https://maps/results"⟩).page = ⟨"https://maps/place/detail-final"⟩ :=
  (c2_detail_nav_on_primary dC2 "https://maps/place/candidate"
    ⟨"https://maps/results"⟩ dpC2 rfl).2

/-- Counterexample to C2 as stated: extracting a candidate changes the
primary surface's URL away from the results list, so the primary
surface's results-list state is not preserved. -/
theorem c2_counterexample :
    (scrape_listing dC2 "https://maps/place/candidate"
        ⟨"https://maps/results"⟩).page.url = "https://maps/place/detail-final" ∧
    (scrape_listing dC2 "https://maps/place/candidate"
        ⟨"https://maps/results"⟩).page.url ≠ "https://maps/results" := by
  decide

/-- Claim C3 (amended): with the previous count initialised to 0, the
loop stalls only after the rendered count equals the previous iteration's
count on 3 consecutive iterations, a change resetting the streak to 0.
A constant positive scripted count therefore stalls exactly when the
script has at least 4 iterations — `[5,5,5]` does not stall, `[5,5,5,5]`
stalls on its fourth iteration. -/
theorem c3_stall_semantics (target n k : Nat) (hn : 0 < n) (ht : n < target) :
    (scroll_results true target (List.replicate k ⟨n, false⟩) = .stalled n ↔
      4 ≤ k) ∧
    ∀ (prev streak c : Nat) (rest : List ScrollStep), c < target → c ≠ prev →
      scrollLoop target prev streak (⟨c, false⟩ :: rest) =
        scrollLoop target c 0 rest := by
  constructor
  · rw [show scroll_results true target (List.replicate k ⟨n, false⟩) =
        scrollLoop target 0 0 (List.replicate k ⟨n, false⟩) from rfl]
    cases k with
    | zero =>
      simp [scrollLoop]
    | succ k =>
      rw [List.replicate_succ, scrollLoop_cons_eq]
      rw [if_neg (by omega : ¬ target ≤ n)]
      rw [if_neg (by simp : ¬ (false = true))]
      rw [if_neg (by omega : ¬ n = 0)]
      rw [scrollLoop_replicate_stall target n ht k 0 (by omega)]
      omega
  · intro prev streak c rest hc hne
    rw [scrollLoop_cons_eq]
    rw [if_neg (by omega : ¬ target ≤ c)]
    rw [if_neg (by simp : ¬ (false = true))]
    rw [if_neg hne]

/-- Witness for the amended C3: a constant count of 5 over four scripted
iterations stalls. -/
theorem c3_stall_semantics_witness :
    scroll_results true 100 (List.replicate 4 ⟨5, false⟩) =
      ScrollOutcome.stalled 5 :=
  (c3_stall_semantics 100 5 4 (by norm_num) (by norm_num)).1.mpr (by norm_num)

/-- Counterexample to C3 as stated: counts `[5,5,5]` over three
iterations do not terminate as stalled — the loop runs off the script
(the first iteration counts as a change from the initial previous count
0, so the streak only reaches 2). -/
theorem c3_counterexample :
    scroll_results true 100 [⟨5, false⟩, ⟨5, false⟩, ⟨5, false⟩] ≠
      ScrollOutcome.stalled 5 ∧
    scroll_results true 100 [⟨5, false⟩, ⟨5, false⟩, ⟨5, false⟩] =
      ScrollOutcome.exhausted := by
  decide

/-- Claim C4 (amended): in every session whose search succeeds, the
discovery loop is invoked with target count `limit` itself — no
over-fetch multiplier is applied. -/
theorem c4_discovery_target (env : Env) (query location : String)
    (limit : Nat) (pg : PageState) (h : env.searchBehaviour = .ok) :
    Ev.discover limit ∈ (scrape_all env query location limit pg).trace ∧
    ∀ t, Ev.discover t ∈ (scrape_all env query location limit pg).trace →
      t = limit := by
  have hs : search env.searchBehaviour = true := by rw [h]; rfl
  by_cases hu : get_listing_urls env.links = []
  · constructor
    · simp [scrape_all, hs, hu]
    · intro t htm
      simp [scrape_all, hs, hu] at htm
      exact htm
  · constructor
    · simp [scrape_all, hs, hu]
    · intro t htm
      simp [scrape_all, hs, hu] at htm
      rcases htm with h1 | h2
      · exact h1
      · exact absurd h2 (scrapeLoop_no_discover _ _ _ _)

/-- Witness for the amended C4: a concrete session with limit 5 records a
discovery invocation with target 5. -/
theorem c4_discovery_target_witness :
    Ev.discover 5 ∈
      (scrape_all envC4 "coffee shops" "Manhattan" 5 ⟨"about:blank"⟩).trace :=
  (c4_discovery_target envC4 "coffee shops" "Manhattan" 5 ⟨"about:blank"⟩
    rfl).1

/-- Counterexample to C4 as stated: with limit 5 the session's trace
contains a discovery invocation with target 5 and none with target 15 =
5 × 3. -/
theorem c4_counterexample :
    Ev.discover 5 ∈
      (scrape_all envC4 "coffee shops" "Manhattan" 5 ⟨"about:blank"⟩).trace ∧
    Ev.discover 15 ∉
      (scrape_all envC4 "coffee shops" "Manhattan" 5 ⟨"about:blank"⟩).trace := by
  decide

/-- Skipping a missing href does not change the truthy hrefs. -/
theorem truthyHrefs_cons_none (rest : List (Option String)) :
    truthyHrefs (none :: rest) = truthyHrefs rest := by
  simp [truthyHrefs]

/-- A present href is kept by the truthiness test iff it is non-empty. -/
theorem truthyHrefs_cons_some (h : String) (rest : List (Option String)) :
    truthyHrefs (some h :: rest) =
      if h ≠ "" then h :: truthyHrefs rest else truthyHrefs rest := by
  by_cases hh : h = "" <;> simp [truthyHrefs, hh]

/-- The accumulation loop of `get_listing_urls` appends, after the
already-collected prefix, exactly the first-seen-distinct truthy hrefs
that are not in that prefix. -/
theorem collectUrls_eq (ls : List (Option String)) :
    ∀ acc : List String,
      collectUrls ls acc =
        acc ++ (firstSeenDistinct (truthyHrefs ls)).filter
          (fun x => decide (x ∉ acc)) := by
  induction ls with
  | nil =>
    intro acc
    simp [collectUrls, truthyHrefs, firstSeenDistinct]
  | cons h? rest ih =>
    intro acc
    cases h? with
    | none =>
      rw [show collectUrls (none :: rest) acc = collectUrls rest acc from rfl,
        truthyHrefs_cons_none]
      exact ih acc
    | some h =>
      by_cases hh : h = ""
      · subst hh
        rw [show collectUrls (some "" :: rest) acc = collectUrls rest acc from rfl,
          truthyHrefs_cons_some]
        simp only [ne_eq, not_true_eq_false, if_false]
        exact ih acc
      · rw [truthyHrefs_cons_some, if_pos hh]
        by_cases hmem : h ∈ acc
        · have hcol : collectUrls (some h :: rest) acc = collectUrls rest acc := by
            rw [show collectUrls (some h :: rest) acc =
              if h ≠ "" ∧ h ∉ acc then collectUrls rest (acc ++ [h])
              else collectUrls rest acc from rfl]
            rw [if_neg (by tauto)]
          rw [hcol, ih acc]
          rw [show firstSeenDistinct (h :: truthyHrefs rest) =
            h :: (firstSeenDistinct (truthyHrefs rest)).filter
              (fun x => decide (x ≠ h)) from rfl]
          rw [List.filter_cons]
          simp only [hmem, not_true_eq_false, decide_False, if_false]
          rw [List.filter_filter]
          congr 1
          apply List.filter_congr
          intro a _
          by_cases hah : a = h
          · subst hah
            simp [hmem]
          · by_cases ha : a ∈ acc <;> simp [ha, hah]
        · have hcol : collectUrls (some h :: rest) acc =
              collectUrls rest (acc ++ [h]) := by
            rw [show collectUrls (some h :: rest) acc =
              if h ≠ "" ∧ h ∉ acc then collectUrls rest (acc ++ [h])
              else collectUrls rest acc from rfl]
            rw [if_pos ⟨hh, hmem⟩]
          rw [hcol, ih (acc ++ [h])]
          rw [show firstSeenDistinct (h :: truthyHrefs rest) =
            h :: (firstSeenDistinct (truthyHrefs rest)).filter
              (fun x => decide (x ≠ h)) from rfl]
          rw [List.filter_cons]
          simp only [hmem, not_false_eq_true, decide_True, if_true]
          rw [List.append_assoc, List.singleton_append, List.filter_filter]
          congr 2
          apply List.filter_congr
          intro a _
          by_cases h1 : a = h
          · subst h1
            simp [List.mem_append]
          · by_cases h2 : a ∈ acc <;> simp [List.mem_append, h1, h2]

/-- The first-seen-distinct list has no duplicates. -/
theorem firstSeenDistinct_nodup (l : List String) :
    (firstSeenDistinct l).Nodup := by
  induction l with
  | nil => simp [firstSeenDistinct]
  | cons h rest ih =>
    simp only [firstSeenDistinct]
    rw [List.nodup_cons]
    constructor
    · intro hmem
      rcases List.mem_filter.mp hmem with ⟨-, hdec⟩
      simp at hdec
    · exact ih.filter _

/-- Claim C5: for every rendered-list snapshot, the candidate-URL
enumeration returns the distinct (truthy) hrefs in first-seen order, so
each href appears in the returned queue at most once even when the
snapshot contains the same href multiple times. -/
theorem c5_enumeration_dedup (ls : List (Option String)) :
    get_listing_urls (some ls) = firstSeenDistinct (truthyHrefs ls) ∧
    (get_listing_urls (some ls)).Nodup := by
  have he : get_listing_urls (some ls) = firstSeenDistinct (truthyHrefs ls) := by
    rw [show get_listing_urls (some ls) = collectUrls ls [] from rfl,
      collectUrls_eq ls []]
    simp
  exact ⟨he, he ▸ firstSeenDistinct_nodup _⟩

/-- On digit-free input the token scanner finds nothing. -/
theorem scanTok_eq_none (cs : List Char)
    (h : ∀ c ∈ cs, c.isDigit = false) : scanTok cs = none := by
  induction cs with
  | nil => rfl
  | cons c rest ih =>
    simp only [scanTok, h c (List.mem_cons_self c rest), Bool.false_eq_true,
      if_false]
    exact ih (fun d hd => h d (List.mem_cons_of_mem c hd))

/-- Claim C6 (amended): rating normalization takes the first
decimal-or-integer token of the selected text, normalizes a comma
decimal separator to a period, and parses it numerically; `"4,5"` yields
4.5, `"4.5 stars"` yields 4.5, and digit-free text yields an absent
rating.  No containment in [0, 5] is enforced. -/
theorem c6_rating_normalization :
    ratingFromText "4,5" = some 4.5 ∧
    ratingFromText "4.5 stars" = some 4.5 ∧
    ∀ text : String, (∀ c ∈ text.data, c.isDigit = false) →
      ratingFromText text = none := by
  refine ⟨?_, ?_, ?_⟩
  · have h1 : firstNumToken "4,5" = some "4,5" := by decide
    have h2 : pyReplace "4,5" "," "." = "4.5" := by decide
    have hs : "4.5".data.span (fun c => decide (c ≠ '.')) = (['4'], ['.', '5']) := by
      decide
    have h4 : digitsToNat ['4'] = 4 := by decide
    have h5 : digitsToNat ['5'] = 5 := by decide
    simp only [ratingFromText, h1, Option.map_some', h2, parseDecimal, hs, h4, h5,
      List.length_singleton, Option.some.injEq]
    norm_num
  · have h1 : firstNumToken "4.5 stars" = some "4.5" := by decide
    have h2 : pyReplace "4.5" "," "." = "4.5" := by decide
    have hs : "4.5".data.span (fun c => decide (c ≠ '.')) = (['4'], ['.', '5']) := by
      decide
    have h4 : digitsToNat ['4'] = 4 := by decide
    have h5 : digitsToNat ['5'] = 5 := by decide
    simp only [ratingFromText, h1, Option.map_some', h2, parseDecimal, hs, h4, h5,
      List.length_singleton, Option.some.injEq]
    norm_num
  · intro text h
    simp [ratingFromText, firstNumToken, scanTok_eq_none text.data h]

/-- Witness for the amended C6: digit-free selected text leaves the
rating absent. -/
theorem c6_rating_normalization_witness :
    ratingFromText "no stars yet" = none :=
  c6_rating_normalization.2.2 "no stars yet" (by decide)

/-- Counterexample to C6 as stated: the selected text `"7"` yields the
rating 7, which does not lie in [0, 5] — the code enforces no range
check. -/
theorem c6_counterexample :
    ratingFromText "7" = some 7 ∧ ¬ ((7 : ℚ) ≤ 5) := by
  decide

/-- Claim C7 (amended): each field's selector cascade is evaluated in
order, but the acceptance criterion is field-specific rather than
uniform non-emptiness: the name field accepts the first strategy whose
element exists, storing its stripped text even when empty, while the
address field passes over a found element whose stripped text has length
at most 5 — even though that content is non-empty — and accepts the next
strategy whose stripped text is longer than 5. -/
theorem c7_field_acceptance (q : String → Option Elem) (finalUrl : String)
    (e1 e2 e3 : Elem)
    (h1 : q "h1.DUwDvf" = some e1)
    (h2 : q "button[data-item-id=\"address\"]" = some e2)
    (h2len : (pyStrip e2.innerText).length ≤ 5)
    (h3 : q "button[data-item-id*=\"address\"] div.fontBodyMedium" = some e3)
    (h3len : 5 < (pyStrip e3.innerText).length) :
    (extractRecord ⟨q, finalUrl⟩).name = some (pyStrip e1.innerText) ∧
    (extractRecord ⟨q, finalUrl⟩).address =
      some (pyReplace (pyStrip e3.innerText) "\n" ", ") := by
  have hne : pyStrip e3.innerText ≠ "" := by
    intro he
    rw [he] at h3len
    exact absurd h3len (by decide)
  have hc2 : addressOf e2 = none := by
    simp only [addressOf]
    rw [if_neg]
    rintro ⟨-, hlt⟩
    omega
  have hc3 : addressOf e3 = some (pyReplace (pyStrip e3.innerText) "\n" ", ") := by
    simp only [addressOf]
    rw [if_pos ⟨hne, h3len⟩]
  constructor
  · simp [extractRecord, name_selectors, firstHit, h1, nameOf]
  · simp [extractRecord, address_selectors, firstHit, h2, h3, hc2, hc3]

/-- Witness for the amended C7 on a concrete detail page: the empty
heading is accepted for the name, and the short address text is passed
over in favour of the longer second strategy. -/
theorem c7_field_acceptance_witness :
    (extractRecord dpC7).name = some "" ∧
    (extractRecord dpC7).address = some "123 Fake Street 99" := by
  have h := c7_field_acceptance qC7 "https://maps/final" ⟨"", fun _ => none⟩
    ⟨"abc", fun _ => none⟩ ⟨"123 Fake Street 99", fun _ => none⟩
    rfl rfl (by decide) rfl (by decide)
  exact ⟨h.1.trans (by decide), h.2.trans (by decide)⟩

/-- Counterexample to C7 as stated: on `dpC7` the name strategy with
empty text is accepted (yielding `some ""` instead of the later
strategy's non-empty `"Actual Name"`), and the non-empty address text
`"abc"` is passed over. -/
theorem c7_counterexample :
    (extractRecord dpC7).name = some "" ∧
    (extractRecord dpC7).name ≠ some "Actual Name" ∧
    (extractRecord dpC7).address = some "123 Fake Street 99" := by
  decide

end MapsScraper
